/-
  Verification of the retrieval-augmented answering pipeline
  (document vector store + RAG answer orchestrator).

  Shallow embedding of:
    - app/services/chat.py   (ChatService: answer_question,
      _check_simple_greeting, _build_context)
    - app/services/documents.py (DocumentService: add_document,
      search_similar_documents, get_document, delete_document,
      delete_all_documents) over an association-list model of the
      ChromaDB collection.
  External collaborators (the embedding model and the Groq completion
  API) are abstracted as function parameters; the orchestrator is
  instrumented with an explicit trace of collaborator calls so that
  "never invoked" claims are statable.
-/
import Mathlib

namespace RagPipeline

/-! ## String primitives mirroring Python semantics -/

/-- Python whitespace test used by `str.strip` (restricted to the
whitespace characters Lean's `Char.isWhitespace` knows; the inputs in
this development use only space, tab, newline, carriage return). -/
def isWs (c : Char) : Bool := c.isWhitespace

/-- `str.lower` on a character list (ASCII case folding; the Japanese
keywords in the source are caseless). -/
def lowerL (l : List Char) : List Char := l.map Char.toLower

/-- `str.strip` on a character list: drop whitespace from both ends. -/
def stripL (l : List Char) : List Char :=
  ((l.dropWhile isWs).reverse.dropWhile isWs).reverse

/-- Does `hay` start with `needle`? -/
def startsWithL : List Char → List Char → Bool
  | [], _ => true
  | _ :: _, [] => false
  | a :: as, b :: bs => a == b && startsWithL as bs

/-- Python's substring containment `needle in hay` on character lists. -/
def hasSub (needle : List Char) : List Char → Bool
  | [] => startsWithL needle []
  | b :: bs => startsWithL needle (b :: bs) || hasSub needle bs

/-! ## Data carried between the services -/

/-- One retrieved document as consumed by `_build_context`: the dict
access `doc.get("metadata", {}).get("title", ...)` may miss, hence the
optional title; `doc.get("document", "")` defaults to the empty string. -/
structure CtxDoc where
  title? : Option String
  document : String
deriving DecidableEq, Repr

/-- A chat message `{"role": ..., "content": ...}`. -/
structure Message where
  role : String
  content : String
deriving DecidableEq, Repr

/-- Trace entry: one collaborator invocation made by `answer_question`. -/
inductive Call where
  | search (query : String) (n_results : Nat)
  | generate (messages : List Message)
deriving DecidableEq, Repr

/-- Errors surfaced by `answer_question`: the `ValueError("質問が空です")`
for blank input, and the wrapping `Exception(f"回答生成エラー: {e}")`
which also records the original cause. -/
inductive ChatError where
  | validationError (msg : String)
  | generationError (msg : String) (cause : String)
deriving DecidableEq, Repr

/-! ## ChatService -/

/-- The greeting keyword list of `_check_simple_greeting`. -/
def greetings : List String :=
  ["こんにちは", "こんばんは", "おはよう", "hello", "hi", "はじめまして"]

/-- The thanks keyword list of `_check_simple_greeting`. -/
def thanksWords : List String := ["ありがとう", "thank", "感謝"]

/-- The farewell keyword list of `_check_simple_greeting`. -/
def goodbyeWords : List String := ["さようなら", "またね", "bye", "goodbye"]

/-- Canned reply for the greeting category. -/
def greetingReply : String := "こんにちは！何かお手伝いできることはありますか？"

/-- Canned reply for the thanks category. -/
def thanksReply : String := "どういたしまして！"

/-- Canned reply for the farewell category. -/
def goodbyeReply : String := "また何かありましたらお声かけください！"

/-- `question.lower().strip()` as computed at the top of
`_check_simple_greeting`. -/
def normQ (question : String) : List Char := stripL (lowerL question.toList)

/-- Does the normalized question contain some greeting keyword? -/
def matchesG (question : String) : Bool :=
  greetings.any (fun g => hasSub g.toList (normQ question))

/-- Does the normalized question contain some thanks keyword? -/
def matchesT (question : String) : Bool :=
  thanksWords.any (fun t => hasSub t.toList (normQ question))

/-- Does the normalized question contain some farewell keyword? -/
def matchesB (question : String) : Bool :=
  goodbyeWords.any (fun b => hasSub b.toList (normQ question))

/-- `ChatService._check_simple_greeting`: three keyword loops in order
(greetings, thanks, farewells), each returning its canned reply on the
first substring match of the lowercased, stripped question. -/
def check_simple_greeting (question : String) : Option String :=
  if matchesG question then some greetingReply
  else if matchesT question then some thanksReply
  else if matchesB question then some goodbyeReply
  else none

/-- Sentinel context when no usable document was retrieved. -/
def noInfoSentinel : String := "関連する文書情報が見つかりませんでした。"

/-- The formatted-entry accumulation loop of `_build_context`:
`enumerate(documents, 1)`, title from metadata with the positional
fallback `f"文書{i}"`, entries with empty text skipped. -/
def contextParts : List CtxDoc → Nat → List String
  | [], _ => []
  | d :: ds, i =>
    let title := d.title?.getD ("文書" ++ toString i)
    let content := d.document
    if content = "" then contextParts ds (i + 1)
    else ("【" ++ title ++ "】\n" ++ content) :: contextParts ds (i + 1)

/-- `ChatService._build_context`. -/
def build_context (documents : List CtxDoc) : String :=
  if documents = [] then noInfoSentinel
  else
    let parts := contextParts documents 1
    if parts = [] then noInfoSentinel
    else String.intercalate "\n\n" parts

/-- The fixed system prompt of `ChatService.__init__` (exact text,
including the source's literal indentation). -/
def system_prompt : String :=
  "あなたはプリザンター業務システム専用のAIアシスタントです。\n            【役割】\n            - プリザンターの操作方法や機能について回答\n            - 業務に関する質問をサポート\n            - 登録されている文書情報を活用した正確な回答\n\n            【回答方針】\n            - 提供された参考情報のみを基に回答してください\n            - 参考情報に答えがない場合は「申し訳ございませんが、その情報は見つかりませんでした。プリザンターの管理者にお問い合わせください」と回答\n            - 推測や想像での回答は行わないでください\n            - 回答は分かりやすく、実用的にしてください\n            - 質問に対して必要最小限の情報のみ答えてください\n            - 挨拶や雑談には簡潔に返し、詳細な説明は求められた場合のみ提供してください\n            - 関連情報の自発的な提供は避け、聞かれたことだけに答えてください\n            "

/-- Text of the user turn before the interpolated context. -/
def userPre : String := "\n                        参考情報:\n                        "

/-- Text of the user turn between the context and the question. -/
def userMid : String := "\n\n                        質問: "

/-- Text of the user turn after the question (concision reminder). -/
def userPost : String :=
  "\n                        \n                        注意: この質問に対して、必要最小限の情報のみで簡潔に答えてください。\n                    "

/-- The user-turn f-string of `answer_question` (exact text). -/
def userContent (context question : String) : String :=
  userPre ++ context ++ userMid ++ question ++ userPost

/-- The message list handed to the completion API. -/
def mkMessages (context question : String) : List Message :=
  [⟨"system", system_prompt⟩, ⟨"user", userContent context question⟩]

/-- `ChatService.answer_question`, with the two collaborators
abstracted: `sfn` is `DocumentService.search_similar_documents` (it may
touch state of type `σ` and may fail), `gfn` is the Groq
`chat.completions.create` call.  Alongside the result we return the
trace of collaborator calls made, and the final collaborator state.
Control flow mirrors the source: blank check, greeting short-circuit,
then a try-block around retrieval, context building, prompt assembly
and generation whose exceptions are re-raised as `回答生成エラー`. -/
def answer_question {σ : Type}
    (sfn : String → Nat → σ → Except String (List CtxDoc) × σ)
    (gfn : List Message → Except String String)
    (question : String) (st : σ) :
    (Except ChatError String × List Call) × σ :=
  if stripL question.toList = [] then
    ((.error (.validationError "質問が空です"), []), st)
  else
    match check_simple_greeting question with
    | some reply => ((.ok reply, []), st)
    | none =>
      match sfn question 3 st with
      | (.error e, st1) =>
        ((.error (.generationError ("回答生成エラー: " ++ e) e),
          [.search question 3]), st1)
      | (.ok docs, st1) =>
        let context := build_context docs
        let messages := mkMessages context question
        match gfn messages with
        | .error e =>
          ((.error (.generationError ("回答生成エラー: " ++ e) e),
            [.search question 3, .generate messages]), st1)
        | .ok answer =>
          ((.ok answer, [.search question 3, .generate messages]), st1)

/-! ## DocumentService over an association-list model of the
ChromaDB collection.  Embedding vectors are modelled as `List ℚ`
(the numeric payload is never computed on; the encoder is an abstract
parameter).  Every collection primitive is a state transformer on
`Store`, so that reads are visibly reads. -/

/-- The metadata dict written by `add_document`:
`{"title", "created_at", "text_length"}`. -/
structure DocMetadata where
  title : String
  created_at : String
  text_length : Nat
deriving DecidableEq, Repr

/-- One stored record: embedding vector, raw text, metadata. -/
structure StoredDoc where
  embedding : List ℚ
  text : String
  metadata : DocMetadata
deriving DecidableEq, Repr

/-- The collection: association list keyed by document id. -/
abbrev Store : Type := List (String × StoredDoc)

/-- `collection.count()`. -/
def Store.count (s : Store) : Nat := s.length

/-- First (only) record stored under a key, if any. -/
def storeGet (id : String) : Store → Option StoredDoc
  | [] => none
  | p :: rest => if p.1 = id then some p.2 else storeGet id rest

/-- Is some record stored under the key? -/
def storeHasKey (id : String) : Store → Bool
  | [] => false
  | p :: rest => if p.1 = id then true else storeHasKey id rest

/-- `collection.get(ids=[id])` reduced to the single optional record.
A read: state unchanged. -/
def collectionGetOne (id : String) (s : Store) : Option StoredDoc × Store :=
  (storeGet id s, s)

/-- `collection.upsert(..., ids=[id])`: replace the record under `id`
in place when present, append it otherwise. -/
def collectionUpsert (id : String) (d : StoredDoc) (s : Store) : Store :=
  if storeHasKey id s then
    s.map (fun p => if p.1 = id then (id, d) else p)
  else s ++ [(id, d)]

/-- `collection.delete(ids=ids)`: drop every record whose id occurs in
`ids`; deleting absent ids is not an error. -/
def collectionDelete (ids : List String) (s : Store) : Store :=
  s.filter (fun p => decide (p.1 ∉ ids))

/-- One similarity hit as returned by `search_similar_documents`. -/
structure SearchHit where
  id : String
  document : String
  metadata : DocMetadata
  distance : ℚ
deriving DecidableEq, Repr

/-- `collection.query(query_embeddings=[qemb], n_results=n)`: score
every record by the store's distance metric `dist`, order by
non-decreasing distance and keep the first `n`.  A read. -/
def collectionQuery (dist : List ℚ → List ℚ → ℚ)
    (qemb : List ℚ) (n : Nat) (s : Store) : List SearchHit × Store :=
  let scored := s.map (fun p =>
    SearchHit.mk p.1 p.2.text p.2.metadata (dist qemb p.2.embedding))
  (((scored.toArray.qsort
      (fun a b => decide (a.distance < b.distance))).toList).take n, s)

/-- Result of `add_document`: `{"vector_id": id, "embedding": embedding}`. -/
structure AddResult where
  vector_id : String
  embedding : List ℚ
deriving DecidableEq, Repr

/-- `DocumentService.add_document`: encode the text, build the metadata
`{title, created_at=now, text_length=len(text)}`, upsert under `id`
(the pre-existing-record check only logs), and return the computed
embedding. `encode` abstracts the SentenceTransformer, `now` the
timestamp. -/
def add_document (encode : String → List ℚ) (now : String)
    (id title text : String) (s : Store) : AddResult × Store :=
  let embedding := encode text
  let doc_metadata : DocMetadata := ⟨title, now, text.length⟩
  let s1 := collectionUpsert id ⟨embedding, text, doc_metadata⟩ s
  (⟨id, embedding⟩, s1)

/-- `DocumentService.search_similar_documents`: encode the query, then
`collection.query` with `n_results`; hits keep id, document text,
metadata and distance. A read. -/
def search_similar_documents (encode : String → List ℚ)
    (dist : List ℚ → List ℚ → ℚ) (query : String) (n_results : Nat)
    (s : Store) : List SearchHit × Store :=
  let query_embedding := encode query
  collectionQuery dist query_embedding n_results s

/-- Errors of the document service (the claim-relevant kind). -/
inductive DocError where
  | notFound (id : String)
deriving DecidableEq, Repr

/-- Result of `get_document`. -/
structure GetResult where
  id : String
  title : String
  text : String
  metadata : DocMetadata
  embedding : List ℚ
deriving DecidableEq, Repr

/-- `DocumentService.get_document`: fetch by id, fail with the
not-found error when the collection returns no record. A read. -/
def get_document (document_id : String) (s : Store) :
    Except DocError GetResult × Store :=
  match collectionGetOne document_id s with
  | (none, s1) => (.error (.notFound document_id), s1)
  | (some d, s1) =>
    (.ok ⟨document_id, d.metadata.title, d.text, d.metadata, d.embedding⟩, s1)

/-- `DocumentService.delete_document`: `collection.delete(ids=[id])`
then `return True` (no existence check). -/
def delete_document (document_id : String) (s : Store) : Bool × Store :=
  (true, collectionDelete [document_id] s)

/-- Result of `delete_all_documents`. -/
structure DeleteAllResult where
  success : Bool
  deleted_count : Nat
deriving DecidableEq, Repr

/-- `DocumentService.delete_all_documents`: count, collect all ids,
bulk-delete them when any exist, recount, report the difference. -/
def delete_all_documents (s : Store) : DeleteAllResult × Store :=
  let count_before := s.count
  let all_ids := s.map Prod.fst
  let s1 := if all_ids = [] then s else collectionDelete all_ids s
  let count_after := s1.count
  (⟨true, count_before - count_after⟩, s1)

/-- The search collaborator that `answer_question` actually receives in
the program: `search_similar_documents` over the live store, its hits
passed on as the dicts `_build_context` consumes (metadata present,
hence a present title). -/
def storeSearch (encode : String → List ℚ) (dist : List ℚ → List ℚ → ℚ) :
    String → Nat → Store → Except String (List CtxDoc) × Store :=
  fun query n_results s =>
    let (hits, s1) := search_similar_documents encode dist query n_results s
    (.ok (hits.map (fun h => ⟨some h.metadata.title, h.document⟩)), s1)

/-! ## Helper lemmas -/

theorem stripL_eq_nil_iff (l : List Char) :
    stripL l = [] ↔ ∀ a ∈ l, isWs a = true := by
  unfold stripL
  rw [List.reverse_eq_nil_iff, List.dropWhile_eq_nil_iff]
  constructor
  · intro h a ha
    have ha' : a ∈ List.takeWhile isWs l ++ List.dropWhile isWs l := by
      rw [List.takeWhile_append_dropWhile isWs l]; exact ha
    rcases List.mem_append.mp ha' with h2 | h2
    · exact List.mem_takeWhile_imp h2
    · exact h a (List.mem_reverse.mpr h2)
  · intro h a ha
    exact h a ((List.dropWhile_sublist isWs).subset (List.mem_reverse.mp ha))

theorem toLower_of_ws {b : Char} (h : isWs b = true) : Char.toLower b = b := by
  have hb : b = ' ' ∨ b = '\t' ∨ b = '\r' ∨ b = '\n' := by
    simpa [isWs, Char.isWhitespace, or_assoc] using h
  rcases hb with rfl | rfl | rfl | rfl <;> decide

theorem lowerL_all_ws {l : List Char} (h : ∀ a ∈ l, isWs a = true) :
    ∀ a ∈ lowerL l, isWs a = true := by
  intro a ha
  simp only [lowerL, List.mem_map] at ha
  obtain ⟨b, hb, rfl⟩ := ha
  rw [toLower_of_ws (h b hb)]
  exact h b hb

theorem hasSub_nil {k : List Char} (h : hasSub k [] = true) : k = [] := by
  cases k with
  | nil => rfl
  | cons a as => simp [hasSub, startsWithL] at h

/-- Every short-circuit keyword is a nonempty string. -/
theorem keywords_ne_nil :
    ∀ k ∈ greetings ++ thanksWords ++ goodbyeWords, k.toList ≠ [] := by decide

/-- A question matching any short-circuit keyword is not blank:
the keyword survives in the lowercased, stripped form, so the plain
stripped form cannot be empty. -/
theorem matches_nonblank {q : String}
    (h : matchesG q = true ∨ matchesT q = true ∨ matchesB q = true) :
    stripL q.toList ≠ [] := by
  intro hnil
  have hall : ∀ a ∈ q.toList, isWs a = true := (stripL_eq_nil_iff _).mp hnil
  have hlow : stripL (lowerL q.toList) = [] :=
    (stripL_eq_nil_iff _).mpr (lowerL_all_ws hall)
  have hnorm : normQ q = [] := by simpa [normQ] using hlow
  have contra : ∀ k : String,
      k ∈ greetings ++ thanksWords ++ goodbyeWords →
      hasSub k.toList (normQ q) = true → False := by
    intro k hk hsub
    rw [hnorm] at hsub
    exact keywords_ne_nil k hk (hasSub_nil hsub)
  rcases h with h | h | h <;>
    obtain ⟨k, hk, hsub⟩ := List.any_eq_true.mp h
  · exact contra k (by simp [hk]) hsub
  · exact contra k (by simp [hk]) hsub
  · exact contra k (by simp [hk]) hsub

/-- After replacing the record under `id` in place, reading `id` back
yields the replacement (given some record with that key existed). -/
theorem storeGet_map_replace (id : String) (d : StoredDoc) :
    ∀ s : Store, storeHasKey id s = true →
      storeGet id (s.map (fun p => if p.1 = id then (id, d) else p))
        = some d := by
  intro s
  induction s with
  | nil => simp [storeHasKey]
  | cons p rest ih =>
    intro hany
    by_cases hp : p.1 = id
    · simp [storeGet, hp]
    · have hrest : storeHasKey id rest = true := by
        simpa [storeHasKey, hp] using hany
      simp [storeGet, hp, ih hrest]

/-- When no record has key `id`, reading `id` skips `s` entirely. -/
theorem storeGet_append_of_no_key (id : String) (t : Store) :
    ∀ s : Store, storeHasKey id s = false →
      storeGet id (s ++ t) = storeGet id t := by
  intro s
  induction s with
  | nil => simp
  | cons p rest ih =>
    intro hany
    by_cases hp : p.1 = id
    · simp [storeHasKey, hp] at hany
    · have hrest : storeHasKey id rest = false := by
        simpa [storeHasKey, hp] using hany
      simp [storeGet, hp, ih hrest]

/-- Read-after-write: a read after `collectionUpsert` on the same id
observes the new record. -/
theorem storeGet_upsert (id : String) (d : StoredDoc) (s : Store) :
    storeGet id (collectionUpsert id d s) = some d := by
  unfold collectionUpsert
  by_cases h : storeHasKey id s = true
  · simp only [h, if_true]
    exact storeGet_map_replace id d s h
  · have h' : storeHasKey id s = false := by simpa using h
    simp only [h', Bool.false_eq_true, if_false]
    rw [storeGet_append_of_no_key id _ s h']
    simp [storeGet]

/-- Deleting a list of ids covering every key empties the store. -/
theorem collectionDelete_all (ids : List String) :
    ∀ s : Store, (∀ p ∈ s, p.1 ∈ ids) →
      collectionDelete ids s = [] := by
  intro s
  induction s with
  | nil => intro; rfl
  | cons p rest ih =>
    intro h
    have hp : p.1 ∈ ids := h p (by simp)
    have ihr := ih (fun q hq => h q (by simp [hq]))
    simp only [collectionDelete] at ihr ⊢
    rw [List.filter_cons, if_neg (by simp [hp])]
    exact ihr

/-- Deleting an id that is not present leaves the store unchanged. -/
theorem collectionDelete_absent (id : String) :
    ∀ s : Store, storeGet id s = none →
      collectionDelete [id] s = s := by
  intro s
  induction s with
  | nil => intro; rfl
  | cons p rest ih =>
    intro h
    by_cases hp : p.1 = id
    · simp [storeGet, hp] at h
    · have hrest : storeGet id rest = none := by
        simpa [storeGet, hp] using h
      have hmem : p.1 ∉ [id] := by simp [hp]
      have ihr := ih hrest
      simp only [collectionDelete] at ihr ⊢
      rw [List.filter_cons, if_pos (decide_eq_true hmem)]
      exact congrArg (p :: ·) ihr

/-! ## Claim theorems: document service -/

/-- C6: writing an existing id via `add_document` fully replaces
vector, text and metadata: after two successive `add_document` calls
with the same id, `get_document` returns exactly the second call's
title, text, metadata and an embedding equal to `encode` of the second
text — never a mix of old and new fields — and the second
`add_document` call returns the computed embedding. -/
theorem upsert_overwrite_atomic
    (encode : String → List ℚ) (now1 now2 : String) (st : Store)
    (id t1 x1 t2 x2 : String) :
    (get_document id
        (add_document encode now2 id t2 x2
          (add_document encode now1 id t1 x1 st).2).2).1
      = .ok ⟨id, t2, x2, ⟨t2, now2, x2.length⟩, encode x2⟩ ∧
    (add_document encode now2 id t2 x2
        (add_document encode now1 id t1 x1 st).2).1
      = ⟨id, encode x2⟩ := by
  constructor
  · simp [get_document, add_document, collectionGetOne, storeGet_upsert]
  · rfl

/-- C7: `delete_all_documents` reports `success = true` with a deleted
count equal to the store's count immediately before the call, and the
count immediately afterwards is `0`. -/
theorem delete_all_count (st : Store) :
    (delete_all_documents st).1 = ⟨true, st.count⟩ ∧
    ((delete_all_documents st).2).count = 0 := by
  unfold delete_all_documents
  by_cases h : st.map Prod.fst = []
  · have hst : st = [] := by
      cases st with
      | nil => rfl
      | cons p rest => simp at h
    subst hst
    exact ⟨rfl, rfl⟩
  · have hempty : collectionDelete (st.map Prod.fst) st = [] :=
      collectionDelete_all _ st (fun p hp => List.mem_map_of_mem Prod.fst hp)
    simp [h, hempty, Store.count]

/-- C8: for an id absent from the store, `get_document` fails with the
not-found error while `delete_document` succeeds, returns `true` and
leaves the store unchanged. -/
theorem unknown_id_get_delete (st : Store) (id : String)
    (h : storeGet id st = none) :
    (get_document id st).1 = .error (.notFound id) ∧
    delete_document id st = (true, st) := by
  constructor
  · simp [get_document, collectionGetOne, h]
  · simp [delete_document, collectionDelete_absent id st h]

/-- C8 witness: on a one-document store, `get_document` of an unknown
id fails with the not-found error and `delete_document` of the same id
is a no-op returning `true`. -/
theorem unknown_id_get_delete_witness :
    (get_document "does-not-exist"
        [("d1", ⟨[1], "We are open 9 to 5.", ⟨"Hours", "2024-01-01", 19⟩⟩)]).1
      = .error (.notFound "does-not-exist") ∧
    delete_document "does-not-exist"
        [("d1", ⟨[1], "We are open 9 to 5.", ⟨"Hours", "2024-01-01", 19⟩⟩)]
      = (true, [("d1", ⟨[1], "We are open 9 to 5.", ⟨"Hours", "2024-01-01", 19⟩⟩)]) :=
  unknown_id_get_delete _ _ (by decide)

/-! ## Claim theorems: answer orchestrator -/

/-- Stand-in search collaborator that always succeeds with fixed
results (used to instantiate witnesses). -/
def stubSearch (results : List CtxDoc) :
    String → Nat → Unit → Except String (List CtxDoc) × Unit :=
  fun _ _ u => (.ok results, u)

/-- Stand-in search collaborator that always fails. -/
def failSearch (e : String) :
    String → Nat → Unit → Except String (List CtxDoc) × Unit :=
  fun _ _ u => (.error e, u)

/-- Stand-in completion collaborator that always succeeds. -/
def stubGen (answer : String) : List Message → Except String String :=
  fun _ => .ok answer

/-- Stand-in completion collaborator that always fails. -/
def failGen (e : String) : List Message → Except String String :=
  fun _ => .error e

/-- C2: a question that is empty or whitespace-only fails with the
validation error and makes zero collaborator calls (empty trace). -/
theorem blank_input_validation {σ : Type}
    (sfn : String → Nat → σ → Except String (List CtxDoc) × σ)
    (gfn : List Message → Except String String)
    (question : String) (st : σ)
    (h : stripL question.toList = []) :
    answer_question sfn gfn question st
      = ((.error (.validationError "質問が空です"), []), st) := by
  have h2 : stripL question.data = [] := h
  simp [answer_question, h2]

/-- C2 witness: `"   "` fails with the validation error and an empty
call trace. -/
theorem blank_input_validation_witness :
    answer_question (stubSearch []) (stubGen "x") "   " ()
      = ((.error (.validationError "質問が空です"), []), ()) :=
  blank_input_validation (stubSearch []) (stubGen "x") "   " () (by decide)

/-- Restate non-blankness on the string's raw character data (the
form `simp` normalizes `String.toList` to). -/
theorem nonblank_data {q : String} (h : stripL q.toList ≠ []) :
    stripL q.data ≠ [] := h

/-- C1: a question containing a keyword of one of the three phrase
sets returns that category's fixed canned reply with zero collaborator
calls; the three replies are pairwise distinct; a question matching no
category (and passing validation) proceeds to retrieval (its trace
starts with a search call). -/
theorem short_circuit_replies {σ : Type}
    (sfn : String → Nat → σ → Except String (List CtxDoc) × σ)
    (gfn : List Message → Except String String)
    (question : String) (st : σ) :
    ((matchesG question = true ∨ matchesT question = true ∨
        matchesB question = true) →
      ∃ r, answer_question sfn gfn question st = ((.ok r, []), st) ∧
        (r = greetingReply ∨ r = thanksReply ∨ r = goodbyeReply)) ∧
    (matchesG question = true ∧ matchesT question = false ∧
        matchesB question = false →
      answer_question sfn gfn question st = ((.ok greetingReply, []), st)) ∧
    (matchesG question = false ∧ matchesT question = true ∧
        matchesB question = false →
      answer_question sfn gfn question st = ((.ok thanksReply, []), st)) ∧
    (matchesG question = false ∧ matchesT question = false ∧
        matchesB question = true →
      answer_question sfn gfn question st = ((.ok goodbyeReply, []), st)) ∧
    (greetingReply ≠ thanksReply ∧ greetingReply ≠ goodbyeReply ∧
      thanksReply ≠ goodbyeReply) ∧
    (matchesG question = false → matchesT question = false →
        matchesB question = false → stripL question.toList ≠ [] →
      ∃ rest res st1, answer_question sfn gfn question st
        = ((res, Call.search question 3 :: rest), st1)) := by
  refine ⟨?_, ?_, ?_, ?_, ⟨by decide, by decide, by decide⟩, ?_⟩
  · intro h
    have hnb := matches_nonblank h
    by_cases hG : matchesG question = true
    · exact ⟨greetingReply, by simp [answer_question, nonblank_data hnb, check_simple_greeting, hG],
        Or.inl rfl⟩
    · have hG' : matchesG question = false := by simpa using hG
      by_cases hT : matchesT question = true
      · exact ⟨thanksReply,
          by simp [answer_question, nonblank_data hnb, check_simple_greeting, hG', hT],
          Or.inr (Or.inl rfl)⟩
      · have hT' : matchesT question = false := by simpa using hT
        have hB : matchesB question = true := by
          rcases h with h | h | h
          · exact absurd h (by simp [hG'])
          · exact absurd h (by simp [hT'])
          · exact h
        exact ⟨goodbyeReply,
          by simp [answer_question, nonblank_data hnb, check_simple_greeting, hG', hT', hB],
          Or.inr (Or.inr rfl)⟩
  · rintro ⟨hG, -, -⟩
    have hnb := matches_nonblank (Or.inl hG)
    simp [answer_question, nonblank_data hnb, check_simple_greeting, hG]
  · rintro ⟨hG, hT, -⟩
    have hnb := matches_nonblank (Or.inr (Or.inl hT))
    simp [answer_question, nonblank_data hnb, check_simple_greeting, hG, hT]
  · rintro ⟨hG, hT, hB⟩
    have hnb := matches_nonblank (Or.inr (Or.inr hB))
    simp [answer_question, nonblank_data hnb, check_simple_greeting, hG, hT, hB]
  · intro hG hT hB hnb
    have hcg : check_simple_greeting question = none := by
      simp [check_simple_greeting, hG, hT, hB]
    rcases hs : sfn question 3 st with ⟨res, st1⟩
    cases res with
    | error e =>
      exact ⟨[], .error (.generationError ("回答生成エラー: " ++ e) e), st1,
        by simp [answer_question, nonblank_data hnb, hcg, hs]⟩
    | ok docs =>
      cases hgen : gfn (mkMessages (build_context docs) question) with
      | error e =>
        exact ⟨[.generate (mkMessages (build_context docs) question)],
          .error (.generationError ("回答生成エラー: " ++ e) e), st1,
          by simp [answer_question, nonblank_data hnb, hcg, hs, hgen]⟩
      | ok ans =>
        exact ⟨[.generate (mkMessages (build_context docs) question)], .ok ans, st1,
          by simp [answer_question, nonblank_data hnb, hcg, hs, hgen]⟩

/-- C1 witness: `"こんにちは"` short-circuits to the greeting reply with
an empty call trace. -/
theorem short_circuit_replies_witness :
    answer_question (stubSearch []) (stubGen "x") "こんにちは" ()
      = ((.ok greetingReply, []), ()) :=
  (short_circuit_replies (stubSearch []) (stubGen "x") "こんにちは" ()).2.1
    ⟨by decide, by decide, by decide⟩

/-- C10: when a question matches several short-circuit categories, the
reply follows the fixed priority greetings, then thanks, then
farewells: a greeting keyword forces the greeting reply regardless of
the other sets, a thanks keyword beats a farewell keyword. -/
theorem short_circuit_priority {σ : Type}
    (sfn : String → Nat → σ → Except String (List CtxDoc) × σ)
    (gfn : List Message → Except String String)
    (question : String) (st : σ) :
    (matchesG question = true →
      answer_question sfn gfn question st = ((.ok greetingReply, []), st)) ∧
    (matchesG question = false → matchesT question = true →
      answer_question sfn gfn question st = ((.ok thanksReply, []), st)) ∧
    (matchesG question = false → matchesT question = false →
        matchesB question = true →
      answer_question sfn gfn question st = ((.ok goodbyeReply, []), st)) := by
  refine ⟨?_, ?_, ?_⟩
  · intro hG
    have hnb := matches_nonblank (Or.inl hG)
    simp [answer_question, nonblank_data hnb, check_simple_greeting, hG]
  · intro hG hT
    have hnb := matches_nonblank (Or.inr (Or.inl hT))
    simp [answer_question, nonblank_data hnb, check_simple_greeting, hG, hT]
  · intro hG hT hB
    have hnb := matches_nonblank (Or.inr (Or.inr hB))
    simp [answer_question, nonblank_data hnb, check_simple_greeting, hG, hT, hB]

/-- C10 witness: a question with both a greeting and a farewell keyword
gets the greeting reply; one with both a thanks and a farewell keyword
gets the thanks reply. -/
theorem short_circuit_priority_witness :
    answer_question (stubSearch []) (stubGen "x") "こんにちは、さようなら" ()
      = ((.ok greetingReply, []), ()) ∧
    answer_question (stubSearch []) (stubGen "x") "ありがとう、さようなら" ()
      = ((.ok thanksReply, []), ()) :=
  ⟨(short_circuit_priority (stubSearch []) (stubGen "x")
      "こんにちは、さようなら" ()).1 (by decide),
   (short_circuit_priority (stubSearch []) (stubGen "x")
      "ありがとう、さようなら" ()).2.1 (by decide) (by decide)⟩

/-- C3: for a question that reaches retrieval, a failure of the search
collaborator, or of the completion collaborator, makes
`answer_question` fail with the single domain error `回答生成エラー`
carrying the original cause (no answer is returned); and the
validation error is never produced on this path — it occurs only for
blank input. -/
theorem generation_error_wrapping {σ : Type}
    (sfn : String → Nat → σ → Except String (List CtxDoc) × σ)
    (gfn : List Message → Except String String)
    (question : String) (st : σ) :
    (stripL question.toList ≠ [] → check_simple_greeting question = none →
      (∀ e st1, sfn question 3 st = (.error e, st1) →
        answer_question sfn gfn question st
          = ((.error (.generationError ("回答生成エラー: " ++ e) e),
              [.search question 3]), st1)) ∧
      (∀ docs st1 e, sfn question 3 st = (.ok docs, st1) →
        gfn (mkMessages (build_context docs) question) = .error e →
        answer_question sfn gfn question st
          = ((.error (.generationError ("回答生成エラー: " ++ e) e),
              [.search question 3,
               .generate (mkMessages (build_context docs) question)]), st1))) ∧
    (∀ m trace st1,
      answer_question sfn gfn question st
          = ((.error (.validationError m), trace), st1) →
      stripL question.toList = []) := by
  constructor
  · intro hnb hcg
    constructor
    · intro e st1 hs
      simp [answer_question, nonblank_data hnb, hcg, hs]
    · intro docs st1 e hs hgen
      simp [answer_question, nonblank_data hnb, hcg, hs, hgen]
  · intro m trace st1 heq
    by_cases h : stripL question.toList = []
    · exact h
    · exfalso
      rw [answer_question, if_neg h] at heq
      cases hcg : check_simple_greeting question with
      | some r => rw [hcg] at heq; simp at heq
      | none =>
        rw [hcg] at heq
        rcases hs : sfn question 3 st with ⟨res, st2⟩
        rw [hs] at heq
        cases res with
        | error e => simp at heq
        | ok docs =>
          cases hgen : gfn (mkMessages (build_context docs) question) with
          | error e => simp [hgen] at heq
          | ok ans => simp [hgen] at heq

/-- C3 witness: with a failing search collaborator,
`"What are your hours?"` fails with the wrapping error carrying the
cause, after exactly the one search call. -/
theorem generation_error_wrapping_witness :
    answer_question (failSearch "boom") (stubGen "x") "What are your hours?" ()
      = ((.error (.generationError ("回答生成エラー: " ++ "boom") "boom"),
          [.search "What are your hours?" 3]), ()) :=
  ((generation_error_wrapping (failSearch "boom") (stubGen "x")
      "What are your hours?" ()).1 (by decide) (by decide)).1 "boom" () rfl

/-- C5: for a non-blank question matching no short-circuit phrase,
`answer_question` makes exactly one search call with the question text
and `n_results = 3`, then exactly one generation call whose user
message is the fixed preamble, the assembled context block, a fixed
separator, the literal question, and a fixed trailer — and returns the
generated text verbatim. -/
theorem retrieval_generation_happy_path {σ : Type}
    (sfn : String → Nat → σ → Except String (List CtxDoc) × σ)
    (gfn : List Message → Except String String)
    (question : String) (st : σ) (docs : List CtxDoc) (st1 : σ) (ans : String)
    (hnb : stripL question.toList ≠ [])
    (hcg : check_simple_greeting question = none)
    (hs : sfn question 3 st = (.ok docs, st1))
    (hgen : gfn (mkMessages (build_context docs) question) = .ok ans) :
    answer_question sfn gfn question st
      = ((.ok ans,
          [.search question 3,
           .generate (mkMessages (build_context docs) question)]), st1) ∧
    mkMessages (build_context docs) question
      = [⟨"system", system_prompt⟩,
         ⟨"user", userPre ++ build_context docs ++ userMid ++ question
            ++ userPost⟩] := by
  constructor
  · simp [answer_question, nonblank_data hnb, hcg, hs, hgen]
  · rfl

/-- C5 witness: with a store stand-in returning the Hours document,
`"What are your hours?"` triggers one search call with the question
text and k = 3, one generation call embedding the context and the
question, and returns the generated answer verbatim. -/
theorem retrieval_generation_happy_path_witness :
    answer_question
        (stubSearch [⟨some "Hours", "We are open 9 to 5."⟩])
        (stubGen "We are open 9 to 5.")
        "What are your hours?" ()
      = ((.ok "We are open 9 to 5.",
          [.search "What are your hours?" 3,
           .generate (mkMessages
             (build_context [⟨some "Hours", "We are open 9 to 5."⟩])
             "What are your hours?")]), ()) ∧
    mkMessages (build_context [⟨some "Hours", "We are open 9 to 5."⟩])
        "What are your hours?"
      = [⟨"system", system_prompt⟩,
         ⟨"user", userPre
            ++ build_context [⟨some "Hours", "We are open 9 to 5."⟩]
            ++ userMid ++ "What are your hours?" ++ userPost⟩] :=
  retrieval_generation_happy_path
    (stubSearch [⟨some "Hours", "We are open 9 to 5."⟩])
    (stubGen "We are open 9 to 5.")
    "What are your hours?" () _ () _ (by decide) (by decide) rfl rfl

/-- Entries with empty text contribute nothing to the context. -/
theorem contextParts_all_empty :
    ∀ (docs : List CtxDoc) (n : Nat), (∀ d ∈ docs, d.document = "") →
      contextParts docs n = [] := by
  intro docs
  induction docs with
  | nil => intro n _; rfl
  | cons d ds ih =>
    intro n h
    have hd : d.document = "" := h d (by simp)
    simp only [contextParts, hd, if_pos rfl]
    exact ih (n + 1) (fun q hq => h q (by simp [hq]))

/-- With every text non-empty, the accumulation loop formats each
enumerated document. -/
theorem contextParts_all_nonempty :
    ∀ (docs : List CtxDoc) (n : Nat), (∀ d ∈ docs, d.document ≠ "") →
      contextParts docs n = (List.enumFrom n docs).map (fun p =>
        "【" ++ (p.2.title?.getD ("文書" ++ toString p.1)) ++ "】\n"
          ++ p.2.document) := by
  intro docs
  induction docs with
  | nil => intro n _; rfl
  | cons d ds ih =>
    intro n h
    have hd : d.document ≠ "" := h d (by simp)
    simp only [contextParts, if_neg hd, List.enumFrom, List.map_cons]
    exact congrArg _ (ih (n + 1) (fun q hq => h q (by simp [hq])))

/-- C4 counterexample: the context is not formatted with ASCII square
brackets — on `[{title:"T1", document:"C1"}, {title:"T2",
document:"C2"}]` the built context differs from
`"[T1]\nC1\n\n[T2]\nC2"`. -/
theorem context_format_ascii_counterexample :
    build_context [⟨some "T1", "C1"⟩, ⟨some "T2", "C2"⟩]
      ≠ "[T1]\nC1\n\n[T2]\nC2" := by decide

/-- C4 (amended): each retrieved document with non-empty text is
formatted as `"【title】\n<text>"` with the positional fallback
`文書N` for a missing title, entries joined by a blank line; an empty
retrieval, or one with no non-empty text, yields the fixed
no-information sentinel; on the two-document example the context is
`"【T1】\nC1\n\n【T2】\nC2"`. -/
theorem build_context_amended :
    build_context [] = noInfoSentinel ∧
    (∀ docs : List CtxDoc, (∀ d ∈ docs, d.document = "") →
      build_context docs = noInfoSentinel) ∧
    (∀ docs : List CtxDoc, docs ≠ [] → (∀ d ∈ docs, d.document ≠ "") →
      build_context docs = String.intercalate "\n\n"
        ((List.enumFrom 1 docs).map (fun p =>
          "【" ++ (p.2.title?.getD ("文書" ++ toString p.1)) ++ "】\n"
            ++ p.2.document))) ∧
    build_context [⟨some "T1", "C1"⟩, ⟨some "T2", "C2"⟩]
      = "【T1】\nC1\n\n【T2】\nC2" ∧
    build_context [⟨none, "C1"⟩] = "【文書1】\nC1" ∧
    noInfoSentinel = "関連する文書情報が見つかりませんでした。" := by
  refine ⟨rfl, ?_, ?_, by decide, by decide, rfl⟩
  · intro docs h
    unfold build_context
    by_cases hd : docs = []
    · simp [hd]
    · simp [hd, contextParts_all_empty docs 1 h]
  · intro docs hne h
    unfold build_context
    rw [if_neg hne]
    have hparts := contextParts_all_nonempty docs 1 h
    rw [hparts]
    cases docs with
    | nil => exact absurd rfl hne
    | cons d ds => simp [List.enumFrom]

/-- C4 witness (amended claim): a concrete two-document retrieval with
one missing title is formatted entry by entry and joined with a blank
line. -/
theorem build_context_amended_witness :
    build_context [⟨some "A", "x"⟩, ⟨none, "y"⟩]
      = String.intercalate "\n\n"
        ((List.enumFrom 1 [(⟨some "A", "x"⟩ : CtxDoc), ⟨none, "y"⟩]).map
          (fun p =>
            "【" ++ (p.2.title?.getD ("文書" ++ toString p.1)) ++ "】\n"
              ++ p.2.document)) :=
  build_context_amended.2.2.1 [⟨some "A", "x"⟩, ⟨none, "y"⟩]
    (by decide) (by decide)

/-- C9: the answering pipeline performs no writes to the document
store: instantiated with the real repository search over the store
(`storeSearch`), `answer_question` returns the store unchanged on every
path — validation failure, short-circuit reply, generation failure, or
success. -/
theorem answer_question_no_store_writes
    (encode : String → List ℚ) (dist : List ℚ → List ℚ → ℚ)
    (gfn : List Message → Except String String)
    (question : String) (st : Store) :
    (answer_question (storeSearch encode dist) gfn question st).2 = st := by
  unfold answer_question
  by_cases h : stripL question.toList = []
  · have h2 : stripL question.data = [] := h
    simp [h2]
  · have h2 : ¬ stripL question.data = [] := h
    cases hcg : check_simple_greeting question with
    | some r => simp [h2, hcg]
    | none =>
      have hsearch : storeSearch encode dist question 3 st
          = (.ok (((search_similar_documents encode dist question 3 st).1).map
              (fun h => ⟨some h.metadata.title, h.document⟩)), st) := rfl
      cases hgen : gfn (mkMessages
          (build_context
            (((search_similar_documents encode dist question 3 st).1).map
              (fun h => ⟨some h.metadata.title, h.document⟩)))
          question) with
      | error e => simp [h2, hcg, hsearch, hgen]
      | ok ans => simp [h2, hcg, hsearch, hgen]

end RagPipeline
